import Mathlib

/-!
Verification of the amalgam-lang-py native interop layer.

This file gives a shallow embedding of the parts of the repository's
`amalgam/scope_manager.py` and `amalgam/api.py` that the checked claims
are about, and proves (or refutes) each claim against that embedding.
-/

namespace Amalgam

/-! ## Scope manager (`amalgam/scope_manager.py`)

`CAPIScopeManager.__init__` reads:

    if isinstance(gc_interval, int):
        self._gc_interval = max(0, gc_interval - 1)
    else:
        self.gc_interval = None          # note: NOT `self._gc_interval`
    self._op_count = 0

so when `gc_interval` is not an int the `_gc_interval` attribute is never
assigned at all (a different attribute, `gc_interval`, is).  We model the
`_gc_interval` attribute as an `Option Nat`: `some t` when the attribute
exists and holds `t`, and `none` when the attribute is absent, in which
case reading `self._gc_interval` raises `AttributeError`. -/

structure ScopeManagerState where
  /-- Value of the `_gc_interval` attribute; `none` means the attribute was
  never assigned (the constructor's else-branch sets `gc_interval` instead). -/
  gcIntervalAttr : Option Nat
  /-- The `_op_count` attribute. -/
  opCount : Nat
deriving DecidableEq, Repr

/-- `CAPIScopeManager.__init__`.  The argument is `some n` when the Python
caller passes the int `n`, and `none` when it passes `None` (the default). -/
def scopeManagerInit (gc_interval : Option Int) : ScopeManagerState :=
  match gc_interval with
  | some n => { gcIntervalAttr := some (max 0 (n - 1)).toNat, opCount := 0 }
  | none => { gcIntervalAttr := none, opCount := 0 }

/-- Exceptions that can escape the scope machinery: the `AttributeError`
raised by `_gc` reading the missing `_gc_interval` attribute, or an
exception raised by the body of the `with` block. -/
inductive PyExc (ε : Type) where
  | attributeError
  | bodyErr (e : ε)
deriving DecidableEq, Repr

/-- `CAPIScopeManager._gc`.  Returns the updated state together with a flag
telling whether `gc.collect()` ran, or an error when reading
`self._gc_interval` raises `AttributeError`. -/
def gcStep (s : ScopeManagerState) : Except Unit (ScopeManagerState × Bool) :=
  match s.gcIntervalAttr with
  | none => Except.error ()
  | some t =>
    if s.opCount ≥ t then Except.ok ({ s with opCount := 0 }, true)
    else Except.ok ({ s with opCount := s.opCount + 1 }, false)

/-- `CAPIScopeManager.capi_scope`: runs the body, then -- in the `finally`
block -- deletes the scope vars and calls `self._gc()`.  The body's outcome
is given as an `Except` value (`.error e` when the body raised `e`).  If
`_gc` raises, that exception propagates instead of the body's outcome, the
state is left unchanged, and no collection happened.  The returned triple is
(outcome seen by the caller, resulting manager state, whether `gc.collect`
ran). -/
def capiScope {ε α : Type} (s : ScopeManagerState) (body : Except ε α) :
    Except (PyExc ε) α × ScopeManagerState × Bool :=
  match gcStep s with
  | Except.error _ => (Except.error PyExc.attributeError, s, false)
  | Except.ok (s', collected) =>
    (match body with
     | Except.ok a => Except.ok a
     | Except.error e => Except.error (PyExc.bodyErr e), s', collected)

/-- Run `n` scopes (each with a normally-returning body) in sequence,
counting how many `gc.collect` passes occurred. -/
def runScopes (s : ScopeManagerState) : Nat → ScopeManagerState × Nat
  | 0 => (s, 0)
  | n + 1 =>
    let r := capiScope (ε := Unit) (α := Unit) s (Except.ok ())
    let rest := runScopes r.2.1 n
    (rest.1, (if r.2.2 then 1 else 0) + rest.2)

/-! ## Owned-string decoding (`amalgam/api.py`, `char_p_to_bytes` and
`LoadEntityStatus.__init__`)

`Amalgam.char_p_to_bytes` reads:

    bytes = cast(p, c_char_p).value
    self.amlg.DeleteString.argtypes = c_char_p,
    self.amlg.DeleteString.restype = None
    self.amlg.DeleteString(p)
    return bytes

We model a `POINTER(c_char)` value as either the null pointer or a valid
pointer carrying an identity and the pointed-at byte string, and record the
native-side interactions (the read performed by `cast(p, c_char_p).value`
and the `DeleteString` invocation) as an event trace. -/

/-- A `POINTER(c_char)` handle: null, or a distinct allocation `id` holding
the null-terminated byte string `data`. -/
inductive CPtr where
  | null
  | valid (id : Nat) (data : List Nat)
deriving DecidableEq, Repr

/-- `cast(p, c_char_p).value`: `None` for the null pointer, otherwise the
pointed-at bytes. -/
def readCharP : CPtr → Option (List Nat)
  | CPtr.null => none
  | CPtr.valid _ d => some d

/-- Native-boundary events performed by the marshaller. -/
inductive MarshalEvent where
  | readBytes (p : CPtr)
  | deleteString (p : CPtr)
deriving DecidableEq, Repr

/-- `Amalgam.char_p_to_bytes`: read the pointed-at bytes, then invoke
`DeleteString` on the pointer, then return the copied bytes.  The second
component is the ordered trace of native-boundary events. -/
def char_p_to_bytes (p : CPtr) : Option (List Nat) × List MarshalEvent :=
  (readCharP p, [MarshalEvent.readBytes p, MarshalEvent.deleteString p])

/-- `LoadEntityStatus.__init__` in the branch where a `_LoadEntityStatus`
record was received: decode `message` with `char_p_to_bytes` and call
`.decode("utf-8")` on the result, then likewise for `version`.  When
`char_p_to_bytes` returned `None` (null field), `.decode` is an attribute
access on `None` and raises `AttributeError`; the second field is then
never decoded.  (UTF-8 decoding itself is abstracted as always
succeeding.)  Returns the decoded record or the error, paired with the
native-boundary event trace. -/
def loadEntityStatusOfC (loaded : Bool) (message version : CPtr) :
    Except Unit (Bool × List Nat × List Nat) × List MarshalEvent :=
  let m := char_p_to_bytes message
  match m.1 with
  | none => (Except.error (), m.2)
  | some mb =>
    let v := char_p_to_bytes version
    match v.1 with
    | none => (Except.error (), m.2 ++ v.2)
    | some vb => (Except.ok (loaded, mb, vb), m.2 ++ v.2)

/-! ## Trace-line construction and quote escaping (`amalgam/api.py`)

`Amalgam.escape_double_quotes` is `s.replace('"', '\\"')`.  `load_entity`
builds its trace line as

    f'LOAD_ENTITY "{esc(handle)}" "{esc(amlg_path)}" '
    f'{str(persist).lower()} {str(load_contained).lower()} '
    f'"{write_log}" "{print_log}"'

where `esc` is `escape_double_quotes` -- note that `write_log` and
`print_log` are interpolated verbatim, without escaping. -/

/-- `str.replace('"', '\\"')` on a character list. -/
def escapeChars : List Char → List Char
  | [] => []
  | c :: rest =>
    if c = '"' then '\\' :: '"' :: escapeChars rest
    else c :: escapeChars rest

/-- `Amalgam.escape_double_quotes`. -/
def escape_double_quotes (s : String) : String := String.mk (escapeChars s.data)

/-- `str(b).lower()` for a Python bool. -/
def pyBoolStr : Bool → String
  | true => "true"
  | false => "false"

/-- The `load_command_log_entry` f-string built inside `Amalgam.load_entity`
(the `\n` terminator added by `_log_execution` is not part of the entry). -/
def load_command_entry (handle amlg_path : String) (persist load_contained : Bool)
    (write_log print_log : String) : String :=
  "LOAD_ENTITY \"" ++ escape_double_quotes handle ++ "\" \""
    ++ escape_double_quotes amlg_path ++ "\" "
    ++ pyBoolStr persist ++ " " ++ pyBoolStr load_contained
    ++ " \"" ++ write_log ++ "\" \"" ++ print_log ++ "\""

/-- Number of double-quote characters in `l` that are not immediately
preceded by a backslash, given the previous character (`none` at the start
of the line).  In a well-formed one-line record the unescaped quotes are
exactly the argument delimiters, so their number is even. -/
def unescapedQuoteCountAux : Option Char → List Char → Nat
  | _, [] => 0
  | prev, c :: rest =>
    (if c = '"' ∧ prev ≠ some '\\' then 1 else 0)
      + unescapedQuoteCountAux (some c) rest

/-- Number of unescaped double quotes in a string. -/
def unescapedQuoteCount (s : String) : Nat := unescapedQuoteCountAux none s.data

/-! ## Trace file rotation and reset (`amalgam/api.py`, `reset_trace`,
`__init__`, `load_entity`)

The trace directory is fixed throughout, so we model a trace file path by
its final component: either the bare requested filename (`Path(dir, file)`)
or the filename with a numeric suffix (`Path(dir, f'<file>.<counter>')`).
The directory contents at the time of the operation are given as the finite
list of names that exist. -/

/-- A trace file name under the trace directory: the bare requested name,
or the name with the numeric suffix `k` (the f-string `f'<file>.<k>'`). -/
inductive TraceName where
  | plain (file : String)
  | numbered (file : String) (k : Nat)
deriving DecidableEq, Repr

/-- An open or closed trace file: its name and the lines written to it. -/
structure TraceFile where
  name : TraceName
  lines : List String
deriving DecidableEq, Repr

/-- The trace-related attributes of an `Amalgam` instance. -/
structure TraceState where
  /-- `self.trace`: the open trace file, or `none` when tracing is off. -/
  current : Option TraceFile
  /-- Files written and closed so far (for observing their final content). -/
  closedFiles : List TraceFile
  /-- `self.load_command_log_entry`. -/
  loadCommandLogEntry : Option String
  /-- `self.append_trace_file`. -/
  appendTraceFile : Bool
deriving DecidableEq, Repr

/-- The counter value at which the rotation loop

    counter = 1
    while self.execution_trace_filepath.exists():
        self.execution_trace_filepath = Path(dir, f'<file>.<counter>')
        counter += 1

stops probing: the least `c ≥ 1` such that `numbered file c` does not
exist. -/
def firstFreeCounter (existing : List TraceName) (file : String) : Nat :=
  Nat.find (p := fun k => TraceName.numbered file (k + 1) ∉ existing)
    (by
      by_contra h
      push_neg at h
      have hinj : Function.Injective
          fun k : Nat => TraceName.numbered file (k + 1) := by
        intro a b hab
        simpa using hab
      have hinf : ({ x | x ∈ existing } : Set TraceName).Infinite :=
        Set.infinite_of_injective_forall_mem hinj fun a => not_not.mp (h a)
      exact hinf existing.finite_toSet) + 1

/-- The name the loop above settles on, starting from `Path(dir, file)`:
with append mode on the loop is skipped; otherwise, if the bare name does
not exist it is kept, and if it does, successive suffixed names are probed
and the first free one is taken. -/
def rotatedName (existing : List TraceName) (append : Bool) (file : String) :
    TraceName :=
  if append then TraceName.plain file
  else if TraceName.plain file ∈ existing then
    TraceName.numbered file (firstFreeCounter existing file)
  else TraceName.plain file

/-- Trace-state fragment of `Amalgam.__init__` with `trace=True`:
`self.load_command_log_entry = None`, and the trace file is opened under
the (possibly rotated) name with no content yet. -/
def init_trace_state (existing : List TraceName) (append : Bool) (file : String) :
    TraceState :=
  { current := some { name := rotatedName existing append file, lines := [] },
    closedFiles := [],
    loadCommandLogEntry := none,
    appendTraceFile := append }

/-- Trace-state effect of `Amalgam.load_entity`: `_log_execution` appends
the `LOAD_ENTITY` command line and `_log_reply` appends the result line.
The source binds the command to the LOCAL variable `load_command_log_entry`
only; `self.load_command_log_entry` is never assigned, so the state field
is unchanged. -/
def load_entity_trace (st : TraceState) (handle amlg_path : String)
    (persist load_contained : Bool) (write_log print_log reply : String) :
    TraceState :=
  let entry := load_command_entry handle amlg_path persist load_contained
    write_log print_log
  { st with
    current := st.current.map fun tf =>
      { tf with lines := tf.lines ++ [entry, "# RESULT >" ++ reply] } }

/-- `Amalgam.reset_trace`: no-op when tracing is off; otherwise write the
terminal `EXIT` line, close the current file, pick the (possibly rotated)
new name, open it, and write the remembered load command as its first line
when one is known. -/
def reset_trace (existing : List TraceName) (st : TraceState) (file : String) :
    TraceState :=
  match st.current with
  | none => st
  | some tf =>
    let closed : TraceFile := { tf with lines := tf.lines ++ ["EXIT"] }
    let newName := rotatedName existing st.appendTraceFile file
    let newLines : List String :=
      match st.loadCommandLogEntry with
      | some cmd => [cmd]
      | none => []
    { st with
      current := some { name := newName, lines := newLines },
      closedFiles := st.closedFiles ++ [closed] }

/-! ## Library path resolution (`amalgam/api.py`, `_parse_postfix`,
`_get_library_path`)

`_parse_postfix` runs `re.findall(r'-(.+?)\.', filename)` and returns
`f'-{matches[-1]}'`, or `None` when there is no match.  We embed the
regular expression directly: a match starts at a `-`, lazily consumes at
least one character (any character except a newline) up to the first
literal `.`, captures the consumed characters, and scanning resumes after
that `.`; when no `.` completes a match the engine advances one character
and retries. -/

/-- The lazy part `(.+?)\.` applied right after a `-`: capture the shortest
non-empty newline-free prefix that is terminated by a literal `.`.  Returns
the capture and the remaining characters after the `.`, or `none` when no
match is possible at this position. -/
def lazyCapture : List Char → Option (List Char × List Char)
  | [] => none
  | c :: rest =>
    if c = '\n' then none
    else
      match rest with
      | '.' :: rest' => some ([c], rest')
      | _ =>
        match lazyCapture rest with
        | some (cap, rem) => some (c :: cap, rem)
        | none => none

/-- `re.findall(r'-(.+?)\.', ...)`: scan left to right for non-overlapping
matches, resuming after each match.  Each recursive call strictly shrinks
the input, so fuel equal to the input length never runs out. -/
def findallAux : Nat → List Char → List (List Char)
  | 0, _ => []
  | _, [] => []
  | fuel + 1, c :: rest =>
    if c = '-' then
      match lazyCapture rest with
      | some (cap, rem) => cap :: findallAux fuel rem
      | none => findallAux fuel rest
    else findallAux fuel rest

/-- All captures of `re.findall(r'-(.+?)\.', l)`. -/
def findall (l : List Char) : List (List Char) := findallAux l.length l

/-- `Amalgam._parse_postfix`. -/
def parse_suffix (filename : String) : Option String :=
  match (findall filename.data).getLast? with
  | some cap => some (String.mk ('-' :: cap))
  | none => none

/-- `Path(p).name`: the component after the last `/` (POSIX semantics). -/
def pathName (p : String) : String :=
  String.mk ((p.data.reverse.takeWhile fun c => c ≠ '/').reverse)

/-- Python `s.startswith(pre)`. -/
def pyStartsWith (s pre : String) : Bool := pre.data.isPrefixOf s.data

/-- Python truthiness of an optional string argument: `None` and the empty
string are falsy. -/
def strTruthy : Option String → Bool
  | none => false
  | some s => !s.data.isEmpty

/-- Python `!=` between an optional string and an optional string (a `str`
compared with `None` is unequal). -/
def optStrNe : Option String → Option String → Bool
  | some a, some b => a != b
  | some _, none => true
  | none, some _ => true
  | none, none => false

/-- Architecture normalization applied when no explicit `arch` was given:
`platform.machine().lower()` with `x86_64` mapped to `amd64` and any
`aarch64*`/`arm64*` name mapped to `arm64`. -/
def normalizeArch (machine : String) : String :=
  if machine = "x86_64" then "amd64"
  else if pyStartsWith machine "aarch64" || pyStartsWith machine "arm64" then "arm64"
  else machine

/-- Per-OS directory name, file extension and supported architectures. -/
def osInfo (os : String) : Option (String × String × List String) :=
  if os = "windows" then some ("windows", "dll", ["amd64"])
  else if os = "darwin" then some ("darwin", "dylib", ["amd64", "arm64"])
  else if os = "linux" then some ("linux", "so", ["amd64", "arm64", "arm64_8a"])
  else none

/-- Errors raised by `_get_library_path`, by cause. -/
inductive ResolveError where
  /-- `ValueError`: caller-supplied postfix does not start with `-`. -/
  | valueError
  /-- `FileNotFoundError`: no library at the resolved or supplied path. -/
  | fileNotFound
  /-- `RuntimeError`: unsupported platform. -/
  | unsupportedPlatform
  /-- `RuntimeError`: unsupported machine architecture. -/
  | unsupportedArch
  /-- `RuntimeError`: postfix not among the discoverable ones. -/
  | unsupportedSuffix
deriving DecidableEq, Repr

/-- The environment `_get_library_path` consults: detected platform and
machine (already lowercased), file existence, the postfixes discoverable
next to the default binaries, and the package's `lib` root directory. -/
structure ResolveEnv where
  system : String
  machine : String
  pathExists : String → Bool
  allowedSuffixes : List String
  libRoot : String

/-- A successful resolution: the returned path, the returned postfix
(`none` models Python `None`), and whether the compatibility
`UserWarning` about a mismatched caller-supplied postfix was emitted. -/
structure ResolvedLib where
  path : String
  suffix : Option String
  warned : Bool
deriving DecidableEq, Repr

/-- `Amalgam._get_library_path`.  (`Path.expanduser` is modelled as the
identity; paths are plain strings joined with `/` as `pathlib` does.) -/
def get_library_path (env : ResolveEnv)
    (library_path library_suffix arch : Option String) :
    Except ResolveError ResolvedLib :=
  if strTruthy library_suffix
      && !(pyStartsWith (library_suffix.getD "") "-") then
    Except.error ResolveError.valueError
  else if strTruthy library_path then
    let p := library_path.getD ""
    let parsed := parse_suffix (pathName p)
    let warned := strTruthy library_suffix && optStrNe library_suffix parsed
    if env.pathExists p then Except.ok ⟨p, parsed, warned⟩
    else Except.error ResolveError.fileNotFound
  else
    let arch0 :=
      if strTruthy arch then arch.getD "" else normalizeArch env.machine
    match osInfo env.system with
    | none => Except.error ResolveError.unsupportedPlatform
    | some (pathOs, ext, supported) =>
      if arch0 ∈ supported then
        let suffix :=
          if strTruthy library_suffix then library_suffix.getD ""
          else if arch0 ≠ "arm64_8a" then "-mt" else "-st"
        let filename := "amalgam" ++ suffix ++ "." ++ ext
        let fullPath :=
          env.libRoot ++ "/" ++ pathOs ++ "/" ++ arch0 ++ "/" ++ filename
        if env.pathExists fullPath then
          Except.ok ⟨fullPath, some suffix, false⟩
        else
          if !env.allowedSuffixes.isEmpty
              && (match parse_suffix filename with
                  | some s => !(env.allowedSuffixes.contains s)
                  | none => true) then
            Except.error ResolveError.unsupportedSuffix
          else Except.error ResolveError.fileNotFound
      else Except.error ResolveError.unsupportedArch

/-! ## Theorems

Each claim theorem below restates and settles one claim; the helper lemmas
it uses stand directly before it. -/

/-- A scope exit on an int-configured manager whose counter has reached the
threshold collects and resets the counter. -/
theorem capiScope_collect (t c : Nat) (hc : c ≥ t) :
    capiScope (ε := Unit) (α := Unit)
        { gcIntervalAttr := some t, opCount := c } (Except.ok ()) =
      (Except.ok (), { gcIntervalAttr := some t, opCount := 0 }, true) := by
  simp [capiScope, gcStep, hc]

/-- A scope exit on an int-configured manager below the threshold just
increments the counter. -/
theorem capiScope_skip (t c : Nat) (hc : ¬ c ≥ t) :
    capiScope (ε := Unit) (α := Unit)
        { gcIntervalAttr := some t, opCount := c } (Except.ok ()) =
      (Except.ok (), { gcIntervalAttr := some t, opCount := c + 1 }, false) := by
  simp [capiScope, gcStep, hc]

/-- Pacing helper: starting from an int-configured manager whose counter is
`c ≤ t` (`t` being the stored `_gc_interval`), `k` scope exits perform
`(k + c) / (t + 1)` collection passes. -/
theorem runScopes_count (t : Nat) :
    ∀ (k c : Nat), c ≤ t →
      (runScopes { gcIntervalAttr := some t, opCount := c } k).2 = (k + c) / (t + 1) := by
  intro k
  induction k with
  | zero =>
    intro c hc
    simp [runScopes, Nat.div_eq_of_lt (Nat.lt_succ_of_le hc)]
  | succ n ih =>
    intro c hc
    by_cases h : c ≥ t
    · have hct : c = t := le_antisymm hc h
      simp only [runScopes, capiScope_collect t c h]
      rw [ih 0 (Nat.zero_le t), hct]
      have h2 : n + 1 + t = n + (t + 1) := by omega
      rw [h2, Nat.add_div_right _ (by omega : 0 < t + 1)]
      simp [Nat.add_comm]
    · simp only [runScopes, capiScope_skip t c h]
      rw [ih (c + 1) (by omega)]
      have h2 : n + 1 + c = n + (c + 1) := by omega
      rw [h2]
      simp

/-- C1: the claim is false as stated.  With configured interval `N = 1` the
claim predicts exactly one `gc.collect` per `N + 1 = 2` scope exits, but the
code performs a pass on every exit (2 passes in 2 exits); and with no
interval (`None`) a scope exit does not complete normally: it raises
`AttributeError`, because the constructor assigned `gc_interval` instead of
`_gc_interval`. -/
theorem c1_pacing_counterexample :
    (runScopes (scopeManagerInit (some 1)) 2).2 = 2 ∧
    ¬ (runScopes (scopeManagerInit (some 1)) 2).2 = 1 ∧
    (capiScope (ε := Unit) (α := Unit) (scopeManagerInit none) (Except.ok ())).1 =
      Except.error PyExc.attributeError ∧
    ¬ (capiScope (ε := Unit) (α := Unit) (scopeManagerInit none) (Except.ok ())).1 =
      Except.ok () := by
  refine ⟨rfl, by decide, rfl, ?_⟩
  intro h
  exact Except.noConfusion h

/-- C1 (amended): with a configured integer interval `N`, exactly one
`gc.collect` pass occurs per `max 1 N.toNat` scope exits -- precisely, `k`
exits perform `k / max 1 N.toNat` passes -- and with no configured interval
(`None`) every scope exit performs zero passes but raises `AttributeError`
instead of completing normally. -/
theorem c1_pacing_amended :
    (∀ (N : Int) (k : Nat),
      (runScopes (scopeManagerInit (some N)) k).2 = k / max 1 N.toNat) ∧
    (∀ (body : Except Unit Unit),
      capiScope (scopeManagerInit none) body =
        (Except.error PyExc.attributeError, scopeManagerInit none, false)) := by
  constructor
  · intro N k
    have h := runScopes_count (max 0 (N - 1)).toNat k 0 (Nat.zero_le _)
    have heq : (max 0 (N - 1)).toNat + 1 = max 1 N.toNat := by omega
    simpa [scopeManagerInit, heq] using h
  · intro body
    rfl

/-- C3: for every pointer handle, `char_p_to_bytes` reads the pointed-at
bytes strictly before invoking `DeleteString`, invokes `DeleteString` on
that handle exactly once, and returns the copied bytes (`none` when the
pointer was null). -/
theorem c3_char_p_to_bytes_safe (p : CPtr) :
    (char_p_to_bytes p).2.indexOf (MarshalEvent.readBytes p) <
      (char_p_to_bytes p).2.indexOf (MarshalEvent.deleteString p) ∧
    (char_p_to_bytes p).2.count (MarshalEvent.deleteString p) = 1 ∧
    (char_p_to_bytes CPtr.null).1 = none ∧
    (∀ (id : Nat) (d : List Nat),
      (char_p_to_bytes (CPtr.valid id d)).1 = some d) := by
  refine ⟨?_, ?_, rfl, fun _ _ => rfl⟩
  · simp [char_p_to_bytes, List.indexOf_cons]
  · simp [char_p_to_bytes, List.count_cons]

/-- C9: `char_p_to_bytes` invokes `DeleteString` unconditionally -- in
particular on the null pointer -- and consequently `LoadEntityStatus`
decoding with a null `message` or `version` field still invokes
`DeleteString` on that null pointer. -/
theorem c9_delete_unconditional :
    (∀ p : CPtr, MarshalEvent.deleteString p ∈ (char_p_to_bytes p).2) ∧
    (MarshalEvent.deleteString CPtr.null ∈ (char_p_to_bytes CPtr.null).2) ∧
    (∀ (loaded : Bool) (version : CPtr),
      MarshalEvent.deleteString CPtr.null ∈
        (loadEntityStatusOfC loaded CPtr.null version).2) ∧
    (∀ (loaded : Bool) (id : Nat) (d : List Nat),
      MarshalEvent.deleteString CPtr.null ∈
        (loadEntityStatusOfC loaded (CPtr.valid id d) CPtr.null).2) := by
  refine ⟨fun p => ?_, ?_, fun loaded version => ?_, fun loaded id d => ?_⟩
  · simp [char_p_to_bytes]
  · simp [char_p_to_bytes]
  · simp [loadEntityStatusOfC, char_p_to_bytes, readCharP]
  · simp [loadEntityStatusOfC, char_p_to_bytes, readCharP]

/-- C4: the claim fails on `load_entity`: `write_log` and `print_log` are
interpolated into the quoted trace line without `escape_double_quotes`.
With `write_log` containing a double quote the emitted command holds that
quote unescaped, leaving an odd number (9) of unescaped quotes, so the line
is not a well-formed one-line record; escaping `write_log` would have given
the even delimiter count 8. -/
theorem c4_unescaped_write_log :
    load_command_entry "h" "p" false false "a\"b" "" =
      "LOAD_ENTITY \"h\" \"p\" false false \"a\"b\" \"\"" ∧
    unescapedQuoteCount (load_command_entry "h" "p" false false "a\"b" "") = 9 ∧
    unescapedQuoteCount
      ("LOAD_ENTITY \"h\" \"p\" false false \""
        ++ escape_double_quotes "a\"b" ++ "\" \"\"") = 8 := by
  refine ⟨by decide, by decide, by decide⟩

/-- Only finitely many names exist, and the suffixed candidates
`numbered file 1, numbered file 2, ...` are pairwise distinct, so some
candidate is free: the rotation loop terminates. -/
theorem exists_free_counter (existing : List TraceName) (file : String) :
    ∃ k : Nat, TraceName.numbered file (k + 1) ∉ existing := by
  by_contra h
  push_neg at h
  have hinj : Function.Injective fun k : Nat => TraceName.numbered file (k + 1) := by
    intro a b hab
    simpa using hab
  have hinf : ({ x | x ∈ existing } : Set TraceName).Infinite :=
    Set.infinite_of_injective_forall_mem hinj fun a => h a
  exact hinf existing.finite_toSet

/-- C5: the claim fails because the re-emission never happens.  Trace
enabled, one `load_entity` call, then `reset_trace("new.trace")`: the
newly opened trace file has no content line at all, because `load_entity`
binds the command to a local variable and `self.load_command_log_entry`
remains `None`. -/
theorem c5_load_command_not_reemitted :
    (load_entity_trace (init_trace_state [] false "execution.trace")
        "h" "p.amlg" false false "" "" "None").loadCommandLogEntry = none ∧
    (reset_trace [TraceName.plain "execution.trace"]
        (load_entity_trace (init_trace_state [] false "execution.trace")
          "h" "p.amlg" false false "" "" "None")
        "new.trace").current =
      some { name := TraceName.plain "new.trace", lines := [] } ∧
    ([] : List String) ≠
      [load_command_entry "h" "p.amlg" false false "" ""] := by
  refine ⟨rfl, by decide, by decide⟩

/-- C6: `reset_trace` on an existing filename with append mode off writes
the terminal `EXIT` line to and closes the previous file, and opens the new
file under `<name>.<c>` where `c` is the first counter (from 1) whose
suffixed name does not already exist. -/
theorem c6_reset_trace_rotation (existing : List TraceName) (st : TraceState)
    (tf : TraceFile) (file : String)
    (hcur : st.current = some tf)
    (happ : st.appendTraceFile = false)
    (hex : TraceName.plain file ∈ existing) :
    ∃ c : Nat,
      1 ≤ c ∧
      TraceName.numbered file c ∉ existing ∧
      (∀ j : Nat, 1 ≤ j → j < c → TraceName.numbered file j ∈ existing) ∧
      (reset_trace existing st file).current =
        some { name := TraceName.numbered file c,
               lines :=
                 match st.loadCommandLogEntry with
                 | some cmd => [cmd]
                 | none => [] } ∧
      (reset_trace existing st file).closedFiles =
        st.closedFiles ++ [{ tf with lines := tf.lines ++ ["EXIT"] }] := by
  refine ⟨firstFreeCounter existing file, by simp [firstFreeCounter], ?_, ?_, ?_, ?_⟩
  · simpa [firstFreeCounter] using Nat.find_spec (exists_free_counter existing file)
  · intro j h1 hj
    have hj' : j - 1 < Nat.find (exists_free_counter existing file) := by
      simp only [firstFreeCounter] at hj
      omega
    have hmin := Nat.find_min (exists_free_counter existing file) hj'
    have hee : j - 1 + 1 = j := by omega
    rw [hee] at hmin
    exact not_not.mp hmin
  · simp [reset_trace, hcur, rotatedName, happ, hex]
  · simp [reset_trace, hcur]

/-- Witness for C6 at a concrete directory state: `t` and `t.1` exist, so
the reset settles on `t.2`, the old file gains the `EXIT` line, and the new
file starts from the remembered load command (here: none). -/
theorem c6_reset_trace_rotation_witness :
    (TraceName.plain "t" ∈ [TraceName.plain "t", TraceName.numbered "t" 1]) ∧
    (∃ c : Nat,
      1 ≤ c ∧
      TraceName.numbered "t" c ∉ [TraceName.plain "t", TraceName.numbered "t" 1] ∧
      (∀ j : Nat, 1 ≤ j → j < c →
        TraceName.numbered "t" j ∈ [TraceName.plain "t", TraceName.numbered "t" 1]) ∧
      (reset_trace [TraceName.plain "t", TraceName.numbered "t" 1]
          { current := some { name := TraceName.plain "t", lines := ["A"] },
            closedFiles := [],
            loadCommandLogEntry := none,
            appendTraceFile := false } "t").current =
        some { name := TraceName.numbered "t" c, lines := [] } ∧
      (reset_trace [TraceName.plain "t", TraceName.numbered "t" 1]
          { current := some { name := TraceName.plain "t", lines := ["A"] },
            closedFiles := [],
            loadCommandLogEntry := none,
            appendTraceFile := false } "t").closedFiles =
        [] ++ [{ name := TraceName.plain "t", lines := ["A"] ++ ["EXIT"] }]) :=
  ⟨by decide,
   c6_reset_trace_rotation [TraceName.plain "t", TraceName.numbered "t" 1]
     { current := some { name := TraceName.plain "t", lines := ["A"] },
       closedFiles := [],
       loadCommandLogEntry := none,
       appendTraceFile := false }
     { name := TraceName.plain "t", lines := ["A"] } "t" rfl rfl (by decide)⟩

/-- C7: with no explicit path, detected operating system `linux`, detected
machine `amd64` and no caller-supplied variant, resolution returns the path
`<lib-root>/linux/amd64/amalgam-mt.so` (in particular the path ends with
`linux/amd64/amalgam-mt.so`) and the variant `-mt`, with no compatibility
warning. -/
theorem c7_default_linux_amd64 (env : ResolveEnv)
    (h1 : env.system = "linux") (h2 : env.machine = "amd64")
    (h3 : env.pathExists (env.libRoot ++ "/linux/amd64/amalgam-mt.so") = true) :
    get_library_path env none none none =
      Except.ok ⟨env.libRoot ++ "/linux/amd64/amalgam-mt.so", some "-mt", false⟩ := by
  have hpath : env.libRoot ++ "/" ++ "linux" ++ "/" ++ "amd64" ++ "/"
      ++ "amalgam-mt.so" = env.libRoot ++ "/linux/amd64/amalgam-mt.so" := by
    simp only [String.append_assoc]
    rfl
  simp only [get_library_path, strTruthy, h1, h2]
  simp only [show normalizeArch "amd64" = "amd64" from by decide]
  simp [osInfo, hpath, h3]

/-- Witness for C7 at a concrete environment. -/
theorem c7_default_linux_amd64_witness :
    (ResolveEnv.mk "linux" "amd64" (fun _ => true) [] "root").pathExists
        ((ResolveEnv.mk "linux" "amd64" (fun _ => true) [] "root").libRoot
          ++ "/linux/amd64/amalgam-mt.so") = true ∧
    get_library_path (ResolveEnv.mk "linux" "amd64" (fun _ => true) [] "root")
        none none none =
      Except.ok
        ⟨(ResolveEnv.mk "linux" "amd64" (fun _ => true) [] "root").libRoot
           ++ "/linux/amd64/amalgam-mt.so", some "-mt", false⟩ :=
  ⟨rfl, c7_default_linux_amd64
    (ResolveEnv.mk "linux" "amd64" (fun _ => true) [] "root") rfl rfl rfl⟩

/-- C8: with the explicit path `/x/amalgam-st.dll` and the caller-supplied
variant `-mt`, resolution succeeds with the compatibility warning emitted
and the effective variant `-st` parsed from the path, not the caller's
value. -/
theorem c8_path_variant_conflict (env : ResolveEnv)
    (h : env.pathExists "/x/amalgam-st.dll" = true) :
    get_library_path env (some "/x/amalgam-st.dll") (some "-mt") none =
      Except.ok ⟨"/x/amalgam-st.dll", some "-st", true⟩ := by
  have hparse : parse_suffix (pathName "/x/amalgam-st.dll") = some "-st" := by
    decide
  simp [get_library_path, strTruthy, pyStartsWith, hparse, h, optStrNe]

/-- Witness for C8 at a concrete environment. -/
theorem c8_path_variant_conflict_witness :
    (ResolveEnv.mk "w" "m" (fun _ => true) [] "r").pathExists
        "/x/amalgam-st.dll" = true ∧
    get_library_path (ResolveEnv.mk "w" "m" (fun _ => true) [] "r")
        (some "/x/amalgam-st.dll") (some "-mt") none =
      Except.ok ⟨"/x/amalgam-st.dll", some "-st", true⟩ :=
  ⟨rfl, c8_path_variant_conflict (ResolveEnv.mk "w" "m" (fun _ => true) [] "r") rfl⟩

/-- C10: with an explicit path whose filename has no parsable `-token`
variant suffix and a well-formed, non-empty caller-supplied variant, the
resolved variant is `None`: the caller's value is discarded and the
compatibility warning is emitted. -/
theorem c10_unparsable_path_variant (env : ResolveEnv) (p post : String)
    (hp : p.data.isEmpty = false)
    (hpost : post.data.isEmpty = false)
    (hdash : pyStartsWith post "-" = true)
    (hparse : parse_suffix (pathName p) = none)
    (hex : env.pathExists p = true) :
    get_library_path env (some p) (some post) none =
      Except.ok ⟨p, none, true⟩ := by
  simp [get_library_path, strTruthy, hp, hpost, hdash, hparse, hex, optStrNe]

/-- Witness for C10: path `/x/amalgam.dll` (no `-token` suffix in the
filename) with caller-supplied variant `-mt`. -/
theorem c10_unparsable_path_variant_witness :
    ("/x/amalgam.dll" : String).data.isEmpty = false ∧
    ("-mt" : String).data.isEmpty = false ∧
    pyStartsWith "-mt" "-" = true ∧
    parse_suffix (pathName "/x/amalgam.dll") = none ∧
    (ResolveEnv.mk "w" "m" (fun _ => true) [] "r").pathExists
        "/x/amalgam.dll" = true ∧
    get_library_path (ResolveEnv.mk "w" "m" (fun _ => true) [] "r")
        (some "/x/amalgam.dll") (some "-mt") none =
      Except.ok ⟨"/x/amalgam.dll", none, true⟩ :=
  ⟨rfl, rfl, by decide, by decide, rfl,
   c10_unparsable_path_variant (ResolveEnv.mk "w" "m" (fun _ => true) [] "r")
     "/x/amalgam.dll" "-mt" rfl rfl (by decide) (by decide) rfl⟩

/-- C2: the exception-propagation guarantee is broken by the same
`_gc_interval` typo.  On a default-constructed manager
(`gc_interval=None`), a body that raises does not see its own exception
propagate: the `finally` block's call to `_gc` raises `AttributeError`,
which supersedes the body's exception. -/
theorem c2_body_exception_superseded :
    capiScope (scopeManagerInit none)
        (Except.error "boom" : Except String Unit) =
      (Except.error PyExc.attributeError, scopeManagerInit none, false) := rfl

end Amalgam
